import Mathlib

/-!
Verification development for the OCR + LLM front-end application.

The definitions below are shallow embeddings of the JavaScript source:
* `src/services/azureService.js` — `processDocumentWithAzure` (submit + poll),
  `extractTextFromAzureResponse` (paragraph/table extraction);
* `src/unnamed/part_000` (`azureServicePython`) — `processWithAzurePython`
  (multi-endpoint fallback orchestration), `pollForResult`,
  `extractTextFromResult`;
* `src/services/llmService.js` — `processWithAzureOpenAI` (prompt placeholder
  substitution with truncation, rate-limit retry loop);
* `src/services/llmService.js.new` — the alternative `apiFormats` candidate
  list of `processDocumentWithAzure`;
* `src/unnamed/part_001` (`App.js`) — `handleFileUpload` state handling.

Network effects are modelled as explicit response streams (`Nat → _`
functions giving the outcome of the n-th HTTP request), and each operation
returns the count of requests/waits it performed together with its
`Except`-style outcome, so that temporal claims (number of POST/GET calls,
backoff waits, "never polls") become statements about those counters.
-/

namespace OcrLlm

/-! ## Data model: analysis results

Mirrors the JSON shapes consumed by the extractors.  A JS `undefined`/absent
field is modelled by `Option` (for objects) or by the falsy value the code
tests for (`""` for `content`, `[]` for arrays). -/

/-- One table cell of an analysis result (`cell.rowIndex`, `cell.columnIndex`,
`cell.content`).  Absent `content` is modelled as `""` (both are falsy in the
source's `if (cell.content)` test). -/
structure Cell where
  rowIndex : Nat
  columnIndex : Nat
  content : String
deriving DecidableEq, Repr

/-- One table of an analysis result (`table.cells`; `table.cells || []` is
modelled by the list itself). -/
structure Table where
  cells : List Cell
deriving DecidableEq, Repr

/-- The `analyzeResult` payload consumed by the extractors: flat `content`
(absent ↦ `""`), `paragraphs` (as their `content` strings), `tables`. -/
structure AnalyzeResult where
  content : String
  paragraphs : List String
  tables : List Table
deriving DecidableEq, Repr

/-- An API response object as passed to the extractors: its `analyzeResult`
field may be absent.  A `null`/`undefined` whole response is an outer
`Option` at the extractor's argument. -/
structure ApiResponse where
  analyzeResult : Option AnalyzeResult
deriving DecidableEq, Repr

/-! ## JS numeric artifacts used by the table-grid construction

`Math.max(...[])` is `-Infinity`, `-Infinity + 1` is `-Infinity`, and a
`for (let i = 0; i < -Infinity; i++)` loop runs zero times.  `JsNum`
captures exactly the values that can occur here (`-Infinity` or a natural
row/column count). -/

/-- A JS number as produced by `Math.max(...indices) + 1`: either
`-Infinity` (empty argument list) or a natural number. -/
inductive JsNum where
  | negInf : JsNum
  | nat : Nat → JsNum
deriving DecidableEq, Repr

/-- `Math.max(...l)` for a list of natural numbers: `-Infinity` on the empty
list, otherwise the maximum. -/
def jsMax : List Nat → JsNum
  | [] => JsNum.negInf
  | x :: xs => JsNum.nat (xs.foldl Nat.max x)

/-- Adding `1` to a `Math.max` result: `-Infinity + 1 = -Infinity`. -/
def jsSucc : JsNum → JsNum
  | JsNum.negInf => JsNum.negInf
  | JsNum.nat n => JsNum.nat (n + 1)

/-- Number of iterations of `for (let i = 0; i < bound; i++)`: zero when the
bound is `-Infinity`. -/
def jsLoopCount : JsNum → Nat
  | JsNum.negInf => 0
  | JsNum.nat n => n

/-! ## List update helpers (JS `arr[i] = v` on an existing array) -/

/-- Replace the element at index `i`; out-of-range indices leave the list
unchanged (the source only ever writes in range, since the grid is sized by
the maximal indices). -/
def setAt {α : Type} : List α → Nat → α → List α
  | [], _, _ => []
  | _ :: xs, 0, v => v :: xs
  | x :: xs, n + 1, v => x :: setAt xs n v

/-- Apply `f` to the element at index `i`; out-of-range indices leave the
list unchanged. -/
def updateAt {α : Type} : List α → Nat → (α → α) → List α
  | [], _, _ => []
  | x :: xs, 0, f => f x :: xs
  | x :: xs, n + 1, f => x :: updateAt xs n f

/-- `tableData[r][c] = v` on a row-major grid. -/
def setCell (g : List (List String)) (r c : Nat) (v : String) :
    List (List String) :=
  updateAt g r (fun row => setAt row c v)

/-! ## Table grid construction (identical in `extractTextFromResult`,
`extractTextFromAzureResponse` of `azureService.js`, lines 104-121 /
part_000 lines 247-264) -/

/-- The single `cells.forEach` step: write `cell.content` at
`[rowIndex][columnIndex]` when the content is truthy. -/
def fillStep (g : List (List String)) (c : Cell) : List (List String) :=
  if c.content ≠ "" then setCell g c.rowIndex c.columnIndex c.content else g

/-- Build the dense 2D grid for one table: size the grid by
`Math.max(...rowIndexes) + 1` rows of `Math.max(...colIndexes) + 1` empty
strings, then fill each truthy cell content at its position. -/
def buildGrid (cells : List Cell) : List (List String) :=
  let rowCount := jsSucc (jsMax (cells.map Cell.rowIndex))
  let colCount := jsSucc (jsMax (cells.map Cell.columnIndex))
  let init := List.replicate (jsLoopCount rowCount)
    (List.replicate (jsLoopCount colCount) "")
  cells.foldl fillStep init

/-- Render the grid rows: each row is `row.join(' | ')` followed by `'\n'`. -/
def renderRows (g : List (List String)) : String :=
  String.join (g.map (fun row => String.intercalate " | " row ++ "\n"))

/-- Render one table: the numbered header `\n表 ${tableIndex + 1}:\n`
followed by the grid rows. -/
def renderTable (tableIndex : Nat) (t : Table) : String :=
  "\n表 " ++ toString (tableIndex + 1) ++ ":\n" ++ renderRows (buildGrid t.cells)

/-- Render all tables in order (`tables.forEach((table, tableIndex) => ...)`). -/
def renderTables (ts : List Table) : String :=
  String.join (ts.enum.map (fun p => renderTable p.1 p.2))

/-! ## The two text extractors -/

/-- `extractTextFromResult` (part_000, lines 221-274): empty string when the
response or its `analyzeResult` is absent; the flat `content` verbatim when
truthy (returning early, before any table handling); otherwise paragraphs
joined with `'\n\n'`, with the table section appended when tables exist. -/
def extractTextFromResult : Option ApiResponse → String
  | none => ""
  | some resp =>
    match resp.analyzeResult with
    | none => ""
    | some ar =>
      if ar.content ≠ "" then ar.content
      else
        let extractedText :=
          if ar.paragraphs ≠ [] then String.intercalate "\n\n" ar.paragraphs
          else ""
        if ar.tables ≠ [] then
          extractedText ++ "\n\n表形式データ:\n" ++ renderTables ar.tables
        else extractedText

/-- `extractTextFromAzureResponse` (`azureService.js`, lines 84-131): empty
string when the response or its `analyzeResult` is absent; paragraphs joined
with `'\n\n'` (the flat `content` field is never consulted), with the table
section appended when tables exist. -/
def extractTextFromAzureResponse : Option ApiResponse → String
  | none => ""
  | some resp =>
    match resp.analyzeResult with
    | none => ""
    | some ar =>
      let extractedText :=
        if ar.paragraphs ≠ [] then String.intercalate "\n\n" ar.paragraphs
        else ""
      if ar.tables ≠ [] then
        extractedText ++ "\n\n表形式データ:\n" ++ renderTables ar.tables
      else extractedText

/-! ## Submit-and-poll client and fallback orchestrator
(`azureServicePython`, part_000 lines 43-170; `azureService.js` lines 12-77)

The poll target's behaviour is a stream `Nat → PollResponse` giving the body
of the n-th GET on the operation location.  Poll operations return
`(GET count, wait count, outcome)`. -/

/-- The succeeded poll payload (`response.data`); only its `analyzeResult`
field is consumed downstream. -/
structure PollData where
  analyzeResult : Option AnalyzeResult
deriving DecidableEq, Repr

/-- Body of one polling GET, dispatched on `response.data.status`:
`succeeded` carries the payload; `failed` carries `data.error?.message`
(used by `azureService.js`) and `JSON.stringify(data.errors || {})` (used by
part_000); anything else (`running`, `notStarted`, ...) is non-terminal. -/
inductive PollResponse where
  | running : PollResponse
  | succeeded : PollData → PollResponse
  | failed : Option String → String → PollResponse

/-- `m || default` on an optional JS error message. -/
def orElseMsg (m : Option String) (dflt : String) : String :=
  match m with
  | none => dflt
  | some s => if s = "" then dflt else s

/-- Polling loop of part_000's `pollForResult` (lines 67-104): GET first,
then wait 1 s before the next attempt; `fuel = maxRetries - retryCount`.
Returns `(GETs issued, waits performed, outcome)`. -/
def pollBody (resp : Nat → PollResponse) : Nat → Nat →
    Nat × Nat × Except String PollData
  | 0, _ => (0, 0, Except.error "ポーリングがタイムアウトしました")
  | fuel + 1, i =>
    match resp i with
    | PollResponse.succeeded d => (1, 0, Except.ok d)
    | PollResponse.failed _ errsJson =>
        (1, 0, Except.error ("処理が失敗しました: " ++ errsJson))
    | PollResponse.running =>
        let r := pollBody resp fuel (i + 1)
        (r.1 + 1, r.2.1 + 1, r.2.2)

/-- `pollForResult` (part_000): at most `maxRetries = 60` GET attempts. -/
def pollForResult (resp : Nat → PollResponse) :
    Nat × Nat × Except String PollData :=
  pollBody resp 60 0

/-- Polling loop of `azureService.js`'s `processDocumentWithAzure` (lines
46-70): wait 1 s first, then GET; `fuel = maxRetries - retries`. -/
def azurePollBody (resp : Nat → PollResponse) : Nat → Nat →
    Nat × Nat × Except String PollData
  | 0, _ => (0, 0, Except.error "OCR処理がタイムアウトしました。")
  | fuel + 1, i =>
    match resp i with
    | PollResponse.succeeded d => (1, 1, Except.ok d)
    | PollResponse.failed emsg _ =>
        (1, 1, Except.error ("OCR処理に失敗しました: " ++ orElseMsg emsg "不明なエラー"))
    | PollResponse.running =>
        let r := azurePollBody resp fuel (i + 1)
        (r.1 + 1, r.2.1 + 1, r.2.2)

/-- The polling phase of `azureService.js` `processDocumentWithAzure`: at
most `maxRetries = 30` GET attempts, each preceded by a 1 s wait. -/
def azurePoll (resp : Nat → PollResponse) :
    Nat × Nat × Except String PollData :=
  azurePollBody resp 30 0

/-- Outcome of the submit POST for one candidate endpoint: `fail` when
`axios.post` throws (network failure or non-2xx status, with the error
message), `ok` with the optional `operation-location` response header. -/
inductive SubmitOutcome where
  | fail : String → SubmitOutcome
  | ok : Option String → SubmitOutcome

/-- Remote behaviour of one candidate endpoint: the outcome of its submit
POST and, if polling starts, the stream of poll responses. -/
structure CandidateBehavior where
  submit : SubmitOutcome
  pollResponses : Nat → PollResponse

/-- One iteration of part_000's candidate loop body (lines 109-146): POST,
require the `operation-location` header, then poll.  Returns
`(poll GETs, outcome)`; the thrown errors are the per-candidate errors the
loop catches. -/
def attemptCandidate (b : CandidateBehavior) : Nat × Except String PollData :=
  match b.submit with
  | SubmitOutcome.fail m => (0, Except.error m)
  | SubmitOutcome.ok none =>
      (0, Except.error "Operation-Locationヘッダーが見つかりません")
  | SubmitOutcome.ok (some _) =>
      let r := pollForResult b.pollResponses
      (r.1, r.2.2)

/-- What the fallback orchestrator produced: how many candidates were
attempted (always a prefix of the list, in order), how many polling GETs
were issued in total, and the final outcome. -/
structure OrchestratorRun where
  attempted : Nat
  pollGets : Nat
  outcome : Except String PollData
deriving Repr

/-- The `for (const api of apiVersions)` loop of part_000 (lines 106-164):
try candidates in order, remember the last error, and when the list is
exhausted throw `ドキュメント処理に失敗しました: ${lastError?.message || 'Unknown error'}`. -/
def processLoop : List CandidateBehavior → Option String → OrchestratorRun
  | [], lastError =>
      { attempted := 0, pollGets := 0,
        outcome := Except.error
          ("ドキュメント処理に失敗しました: " ++ orElseMsg lastError "Unknown error") }
  | b :: rest, _ =>
      match attemptCandidate b with
      | (g, Except.ok d) =>
          { attempted := 1, pollGets := g, outcome := Except.ok d }
      | (g, Except.error e) =>
          let r := processLoop rest (some e)
          { attempted := r.attempted + 1, pollGets := g + r.pollGets,
            outcome := r.outcome }

/-- `processWithAzurePython` (part_000), restricted to its candidate
iteration: run the loop, and let the outer `catch` (lines 166-169) wrap a
final failure as `ドキュメント処理中にエラーが発生しました: ${message}`.  A success
returns the polled data (whose `analyzeResult` the caller repackages). -/
def processWithAzurePython (bs : List CandidateBehavior) : OrchestratorRun :=
  let r := processLoop bs none
  match r.outcome with
  | Except.ok _ => r
  | Except.error e =>
      { r with outcome :=
          Except.error ("ドキュメント処理中にエラーが発生しました: " ++ e) }

/-! ## Candidate endpoint lists (Endpoint Resolver)

`apiVersions` is the list actually iterated at runtime (part_000 lines
43-64, used by `App.js` via `processWithAzurePython`).  `apiFormats` is the
list of the unused draft `llmService.js.new` variant of
`processDocumentWithAzure` (lines 588-639; headers and the empty `params`
object are not part of the ordering and are omitted). -/

/-- One candidate of part_000's `apiVersions`. -/
structure ApiCandidate where
  path : String
  version : String
  isCustomPath : Bool
deriving DecidableEq, Repr

/-- part_000's `apiVersions` list (lines 43-64), in source order. -/
def apiVersions (endpoint modelId : String) : List ApiCandidate :=
  [ { path := endpoint ++ "/formrecognizer/v2.1/custom/models/" ++ modelId ++ "/analyze",
      version := "2021-09-30", isCustomPath := true },
    { path := endpoint ++ "/formrecognizer/custom/models/" ++ modelId ++ "/analyze",
      version := "2021-09-30", isCustomPath := true },
    { path := endpoint ++ "/formrecognizer/documentModels/" ++ modelId ++ ":analyze",
      version := "2022-08-31", isCustomPath := false },
    { path := endpoint ++ "/documentintelligence/documentModels/" ++ modelId ++ ":analyze",
      version := "2023-07-31", isCustomPath := false } ]

/-- One candidate of `llmService.js.new`'s `apiFormats`. -/
structure ApiFormat where
  apiUrl : String
  apiVersion : String
deriving DecidableEq, Repr

/-- `llmService.js.new`'s `apiFormats` list (lines 588-639), in source
order. -/
def apiFormats (endpoint customModelId : String) : List ApiFormat :=
  [ { apiUrl := endpoint ++ "/documentintelligence/documentModels/" ++ customModelId ++ ":analyze",
      apiVersion := "2023-07-31" },
    { apiUrl := endpoint ++ "/formrecognizer/documentModels/" ++ customModelId ++ ":analyze",
      apiVersion := "2023-07-31" },
    { apiUrl := endpoint ++ "/formrecognizer/documentModels/" ++ customModelId ++ ":analyze",
      apiVersion := "2022-08-31" },
    { apiUrl := endpoint ++ "/formrecognizer/custom/models/" ++ customModelId ++ "/analyze",
      apiVersion := "2021-09-30" },
    { apiUrl := endpoint ++ "/formrecognizer/v2.1/custom/models/" ++ customModelId ++ "/analyze",
      apiVersion := "2021-09-30" } ]

/-- Chronological rank of the Azure API generations occurring in the two
candidate lists: larger means a more recent generation. -/
def versionRank (v : String) : Nat :=
  if v = "2021-09-30" then 0
  else if v = "2022-08-31" then 1
  else if v = "2023-07-31" then 2
  else 0

/-! ## LLM formatter client (`llmService.js`, `processWithAzureOpenAI`)

### Placeholder substitution with truncation (lines 26-36)

Strings are modelled as `List Char` here so that the first-occurrence
`String.prototype.replace` (including its `$`-substitution patterns for a
string replacement, ECMA-262 `GetSubstitution`) can be defined by plain
recursion. -/

/-- `MAX_OCR_LENGTH` (line 28). -/
def MAX_OCR_LENGTH : Nat := 3000

/-- The truncation marker appended when the OCR text is cut (line 33). -/
def truncationMarker : List Char :=
  "\n... [テキストが長すぎるため制限されました]".data

/-- Lines 29-34: `ocrText.substring(0, MAX_OCR_LENGTH)` plus the marker when
the text exceeds `MAX_OCR_LENGTH`, the text unchanged otherwise. -/
def limitOcrText (t : List Char) : List Char :=
  if MAX_OCR_LENGTH < t.length then t.take MAX_OCR_LENGTH ++ truncationMarker
  else t

/-- The backquote character, `$`-pattern for the text before the match. -/
def backquoteChar : Char := Char.ofNat 96

/-- The apostrophe character, `$`-pattern for the text after the match. -/
def aposChar : Char := Char.ofNat 39

/-- ECMA-262 `GetSubstitution` for a string search value: expand `$$`,
`$&`, dollar-backquote and dollar-apostrophe in the replacement string
(there are no capture groups, so all other `$` sequences are literal). -/
def expandDollars (matched before after : List Char) : List Char → List Char
  | [] => []
  | c :: cs =>
    if c = '$' then
      match cs with
      | [] => ['$']
      | d :: ds =>
        if d = '$' then '$' :: expandDollars matched before after ds
        else if d = '&' then matched ++ expandDollars matched before after ds
        else if d = backquoteChar then before ++ expandDollars matched before after ds
        else if d = aposChar then after ++ expandDollars matched before after ds
        else c :: expandDollars matched before after (d :: ds)
    else c :: expandDollars matched before after cs

/-- Split `s` around the first occurrence of `pat`, returning the parts
before and after it, or `none` when `pat` does not occur. -/
def splitFirst (pat : List Char) : List Char → Option (List Char × List Char)
  | [] => if pat = [] then some ([], []) else none
  | c :: rest =>
    if pat.isPrefixOf (c :: rest) then some ([], (c :: rest).drop pat.length)
    else
      match splitFirst pat rest with
      | some (b, a) => some (c :: b, a)
      | none => none

/-- JS `s.replace(pat, repl)` for a string `pat`: replace the first
occurrence of `pat` by the `$`-expanded `repl`; return `s` unchanged when
`pat` does not occur. -/
def jsReplace (s pat repl : List Char) : List Char :=
  match splitFirst pat s with
  | none => s
  | some (b, a) => b ++ expandDollars pat b a repl ++ a

/-- Line 36: `prompt.replace('{{OCR_RESULT}}', limitedOcrText)`. -/
def fullPrompt (prompt ocrText : List Char) : List Char :=
  jsReplace prompt "{{OCR_RESULT}}".data (limitOcrText ocrText)

/-! ### Rate-limit retry loop (lines 82-111)

The endpoint's behaviour is a stream `Nat → LlmAttemptResult` giving the
outcome of the n-th POST. -/

/-- Outcome of one POST to the chat-completion endpoint: a 2xx response
carrying `data.choices` (each choice's `message.content`), an HTTP error
with its status and the error message extracted from the response body, or
no response at all (network failure). -/
inductive LlmAttemptResult where
  | success : List String → LlmAttemptResult
  | httpError : Nat → String → LlmAttemptResult
  | noResponse : LlmAttemptResult

/-- The error message thrown for an HTTP error response (lines 153-159 of
`llmService.js`, after the message extraction ladder). -/
def httpErrMsg (status : Nat) (dataMsg : String) : String :=
  if status = 401 then
    "Azure OpenAI認証エラー: APIキーが正しくないか期限切れの可能性があります"
  else if status = 404 then
    "Azure OpenAIエンドポイントが見つかりません: エンドポイントURLまたはデプロイメント名を確認してください"
  else
    "Azure OpenAIエラー (" ++ toString status ++ "): " ++
      (if dataMsg = "" then "不明なエラー" else dataMsg)

/-- The message thrown when the request got no response (line 169). -/
def noResponseMsg (endpoint : String) : String :=
  "Azure OpenAIから応答がありませんでした。エンドポイントのアクセス性やネットワーク接続を確認してください: " ++ endpoint

/-- The `while (retryCount <= maxRetries)` loop (lines 87-111):
`retriesLeft = maxRetries - retryCount`.  A 429 response with retries left
waits 90 s and re-POSTs; any other failure throws at once.  Returns
`(POSTs issued, backoff waits, outcome)`. -/
def llmTry (att : Nat → LlmAttemptResult) (endpoint : String) :
    Nat → Nat → Nat × Nat × Except String (List String)
  | 0, i =>
    match att i with
    | LlmAttemptResult.success cs => (1, 0, Except.ok cs)
    | LlmAttemptResult.httpError s m => (1, 0, Except.error (httpErrMsg s m))
    | LlmAttemptResult.noResponse => (1, 0, Except.error (noResponseMsg endpoint))
  | r + 1, i =>
    match att i with
    | LlmAttemptResult.success cs => (1, 0, Except.ok cs)
    | LlmAttemptResult.httpError s m =>
        if s = 429 then
          let k := llmTry att endpoint r (i + 1)
          (k.1 + 1, k.2.1 + 1, k.2.2)
        else (1, 0, Except.error (httpErrMsg s m))
    | LlmAttemptResult.noResponse => (1, 0, Except.error (noResponseMsg endpoint))

/-- The request phase of `processWithAzureOpenAI`: run the retry loop with
`maxRetries = 2` (line 84), then return the first choice's content, or throw
the unexpected-format error when there are no choices (lines 113-118). -/
def processWithAzureOpenAI (att : Nat → LlmAttemptResult) (endpoint : String) :
    Nat × Nat × Except String String :=
  match llmTry att endpoint 2 0 with
  | (p, w, Except.ok cs) =>
    match cs with
    | [] => (p, w, Except.error "予期しないAzure OpenAI応答フォーマット")
    | c :: _ => (p, w, Except.ok c)
  | (p, w, Except.error e) => (p, w, Except.error e)

/-! ## Upload handler (`App.js` = part_001, `handleFileUpload`, lines
90-163) -/

/-- The environment of one upload: the outcome of the Python-style OCR
attempt, of the standard fallback OCR attempt, the configured LLM endpoint
string, and the outcome of the LLM formatting call. -/
structure UploadEnv where
  pythonResult : Except String ApiResponse
  stdResult : Except String ApiResponse
  llmEndpoint : String
  llmOutcome : Except String String

/-- The React state set by the handler: `error`, `ocrResult` (raw response
plus extracted text) and `llmResult`. -/
structure AppState where
  error : String
  ocrResult : Option (ApiResponse × String)
  llmResult : String
deriving Repr

/-- Step 1 of `handleFileUpload` (lines 97-111): try the Python-style
implementation, fall back to the standard one, pairing the raw response
with its extracted text; a failure of the fallback is the OCR error. -/
def ocrStage (env : UploadEnv) : Except String (ApiResponse × String) :=
  match env.pythonResult with
  | Except.ok r => Except.ok (r, extractTextFromResult (some r))
  | Except.error _ =>
    match env.stdResult with
    | Except.ok r => Except.ok (r, extractTextFromAzureResponse (some r))
    | Except.error m => Except.error m

/-- `handleFileUpload` (lines 90-163): state starts cleared; an OCR failure
sets the OCR error; otherwise `ocrResult` is stored, and the LLM step runs
only when the extracted text and the LLM endpoint are both truthy — its
failure sets the LLM error but leaves `ocrResult` untouched. -/
def handleFileUpload (env : UploadEnv) : AppState :=
  match ocrStage env with
  | Except.error m =>
      { error := "OCR処理エラー: " ++ m, ocrResult := none, llmResult := "" }
  | Except.ok (r, text) =>
      if text ≠ "" ∧ env.llmEndpoint ≠ "" then
        match env.llmOutcome with
        | Except.ok t =>
            { error := "", ocrResult := some (r, text), llmResult := t }
        | Except.error m =>
            { error := "LLM処理エラー: " ++ m, ocrResult := some (r, text),
              llmResult := "" }
      else { error := "", ocrResult := some (r, text), llmResult := "" }

/-! ## Spec-level view of the table grid and the extraction policy

`specGrid`/`extractSpec` restate the spec's description ("dense row-major
grid sized `max(rowIndex)+1 × max(colIndex)+1`, defaulting empty cells to
`""`, each cell's content placed at `[rowIndex][columnIndex]`"; "use
`content` verbatim ... then unconditionally append the table section") so
they can be compared with the code-derived definitions. -/

/-- The content placed at grid position `(r, c)`: the last cell of the list
with truthy content at that position, defaulting to the empty string. -/
def specCellValue (cells : List Cell) (r c : Nat) : String :=
  cells.foldl
    (fun acc cl =>
      if cl.content ≠ "" ∧ cl.rowIndex = r ∧ cl.columnIndex = c then cl.content
      else acc)
    ""

/-- The dense row-major grid of size `max(rowIndex)+1 × max(colIndex)+1`
described by the spec, defined by positional lookup. -/
def specGrid (cells : List Cell) : List (List String) :=
  (List.range ((cells.map Cell.rowIndex).foldl Nat.max 0 + 1)).map fun r =>
    (List.range ((cells.map Cell.columnIndex).foldl Nat.max 0 + 1)).map fun c =>
      specCellValue cells r c

/-- Modelled from the spec (§4.4): the extraction policy as the spec words
it — `content` verbatim when present, else paragraphs joined with blank
lines, and *then, unconditionally,* the rendered table section appended
when tables are present. -/
def extractSpec : Option ApiResponse → String
  | none => ""
  | some resp =>
    match resp.analyzeResult with
    | none => ""
    | some ar =>
      (if ar.content ≠ "" then ar.content
       else if ar.paragraphs ≠ [] then String.intercalate "\n\n" ar.paragraphs
       else "") ++
      (if ar.tables ≠ [] then "\n\n表形式データ:\n" ++ renderTables ar.tables
       else "")

/-! ### The imperative grid fill computes the spec's dense grid -/

/-- The entry of a row-major grid at `(r, c)`, when it exists. -/
def entryAt (g : List (List String)) (r c : Nat) : Option String :=
  g[r]?.bind fun row => row[c]?

/-! ### Concrete example inputs used in counterexamples and witnesses -/

/-- A single cell at position (0, 0) with content `"A"`. -/
def exCell : Cell := { rowIndex := 0, columnIndex := 0, content := "A" }

/-- A one-cell table. -/
def exTable : Table := { cells := [exCell] }

/-- A response having both a flat `content` and a table. -/
def exContentAndTable : ApiResponse :=
  { analyzeResult := some
      { content := "C", paragraphs := [], tables := [exTable] } }

/-- Convenience constructor for a response with all three payload fields. -/
def mkResp (content : String) (paragraphs : List String)
    (tables : List Table) : ApiResponse :=
  { analyzeResult := some
      { content := content, paragraphs := paragraphs, tables := tables } }

/-- A candidate endpoint whose submit POST fails with message `"e1"`. -/
def exFailCand : CandidateBehavior :=
  { submit := SubmitOutcome.fail "e1",
    pollResponses := fun _ => PollResponse.running }

/-- A candidate endpoint whose submit succeeds with an operation location
and whose job succeeds on the first poll. -/
def exOkCand : CandidateBehavior :=
  { submit := SubmitOutcome.ok (some "loc"),
    pollResponses := fun _ => PollResponse.succeeded { analyzeResult := none } }

lemma setAt_length {α : Type} (v : α) :
    ∀ (l : List α) (i : Nat), (setAt l i v).length = l.length := by
  intro l
  induction l with
  | nil => intro i; rfl
  | cons x xs ih =>
    intro i
    cases i with
    | zero => rfl
    | succ n => simpa [setAt] using ih n

lemma updateAt_length {α : Type} (f : α → α) :
    ∀ (l : List α) (i : Nat), (updateAt l i f).length = l.length := by
  intro l
  induction l with
  | nil => intro i; rfl
  | cons x xs ih =>
    intro i
    cases i with
    | zero => rfl
    | succ n => simpa [updateAt] using ih n

lemma setAt_getElem? {α : Type} (v : α) :
    ∀ (l : List α) (i j : Nat),
      (setAt l i v)[j]? =
        if i = j then (if j < l.length then some v else none) else l[j]? := by
  intro l
  induction l with
  | nil =>
    intro i j
    cases i <;> cases j <;> simp [setAt]
  | cons x xs ih =>
    intro i j
    cases i with
    | zero =>
      cases j with
      | zero => simp [setAt]
      | succ m => simp [setAt]
    | succ n =>
      cases j with
      | zero => simp [setAt]
      | succ m =>
        have := ih n m
        simp only [setAt, List.getElem?_cons_succ, List.length_cons]
        rw [this]
        by_cases h : n = m
        · subst h; simp [Nat.succ_lt_succ_iff]
        · simp [h, fun hc => h (Nat.succ_injective hc)]

lemma updateAt_getElem? {α : Type} (f : α → α) :
    ∀ (l : List α) (i j : Nat),
      (updateAt l i f)[j]? =
        if i = j then l[j]?.map f else l[j]? := by
  intro l
  induction l with
  | nil =>
    intro i j
    cases i <;> cases j <;> simp [updateAt]
  | cons x xs ih =>
    intro i j
    cases i with
    | zero =>
      cases j with
      | zero => simp [updateAt]
      | succ m => simp [updateAt]
    | succ n =>
      cases j with
      | zero => simp [updateAt]
      | succ m =>
        have := ih n m
        simp only [updateAt, List.getElem?_cons_succ]
        rw [this]
        by_cases h : n = m
        · subst h; simp
        · simp [h, fun hc => h (Nat.succ_injective hc)]

lemma entryAt_fillStep (g : List (List String)) (cl : Cell) (r c : Nat) :
    entryAt (fillStep g cl) r c =
      (entryAt g r c).map fun v =>
        if cl.content ≠ "" ∧ cl.rowIndex = r ∧ cl.columnIndex = c then
          cl.content
        else v := by
  by_cases hco : cl.content = ""
  · simp only [fillStep, ne_eq, hco, not_true_eq_false, if_false, entryAt,
      false_and, if_false]
    cases g[r]?.bind fun row => row[c]? <;> simp
  · have hfs : fillStep g cl = setCell g cl.rowIndex cl.columnIndex cl.content := by
      simp [fillStep, hco]
    rw [hfs]
    simp only [entryAt, setCell]
    rw [updateAt_getElem?]
    by_cases hr : cl.rowIndex = r
    · rw [if_pos hr]
      cases hg : g[r]? with
      | none => simp
      | some row =>
        simp only [Option.map_some', Option.some_bind]
        rw [setAt_getElem?]
        by_cases hc : cl.columnIndex = c
        · rw [if_pos hc]
          by_cases hlt : c < row.length
          · rw [if_pos hlt, List.getElem?_eq_getElem hlt]
            simp [hco, hr, hc]
          · rw [if_neg hlt, List.getElem?_eq_none (Nat.le_of_not_lt hlt)]
            simp
        · rw [if_neg hc]
          cases hw : row[c]? with
          | none => simp
          | some w => simp [hc]
    · rw [if_neg hr]
      cases hg : g[r]? with
      | none => simp
      | some row =>
        cases hw : row[c]? with
        | none => simp [hw]
        | some w => simp [hw, hr]

lemma entryAt_foldl_fillStep (r c : Nat) :
    ∀ (cells : List Cell) (g : List (List String)),
      entryAt (cells.foldl fillStep g) r c =
        (entryAt g r c).map fun v =>
          cells.foldl
            (fun acc cl =>
              if cl.content ≠ "" ∧ cl.rowIndex = r ∧ cl.columnIndex = c then
                cl.content
              else acc)
            v := by
  intro cells
  induction cells with
  | nil =>
    intro g
    cases h : entryAt g r c <;> simp [h]
  | cons cl rest ih =>
    intro g
    rw [List.foldl_cons, ih (fillStep g cl), entryAt_fillStep]
    cases h : entryAt g r c <;> simp [h]

lemma fillStep_length (g : List (List String)) (cl : Cell) :
    (fillStep g cl).length = g.length := by
  by_cases hco : cl.content = ""
  · simp [fillStep, hco]
  · simp [fillStep, hco, setCell, updateAt_length]

lemma foldl_fillStep_length :
    ∀ (cells : List Cell) (g : List (List String)),
      (cells.foldl fillStep g).length = g.length := by
  intro cells
  induction cells with
  | nil => intro g; rfl
  | cons cl rest ih =>
    intro g
    rw [List.foldl_cons, ih, fillStep_length]

lemma jsLoopCount_nonempty {l : List Nat} (h : l ≠ []) :
    jsLoopCount (jsSucc (jsMax l)) = l.foldl Nat.max 0 + 1 := by
  cases l with
  | nil => exact absurd rfl h
  | cons x xs => simp [jsMax, jsSucc, jsLoopCount, Nat.zero_max]

/-- The code's imperative grid fill produces exactly the dense grid the
spec describes, for every table with at least one cell. -/
lemma buildGrid_eq_specGrid (cells : List Cell) (h : cells ≠ []) :
    buildGrid cells = specGrid cells := by
  have hrow : cells.map Cell.rowIndex ≠ [] := by
    simpa using h
  have hcol : cells.map Cell.columnIndex ≠ [] := by
    simpa using h
  set R := (cells.map Cell.rowIndex).foldl Nat.max 0 + 1 with hR
  set C := (cells.map Cell.columnIndex).foldl Nat.max 0 + 1 with hC
  have hRcount : jsLoopCount (jsSucc (jsMax (cells.map Cell.rowIndex))) = R :=
    jsLoopCount_nonempty hrow
  have hCcount : jsLoopCount (jsSucc (jsMax (cells.map Cell.columnIndex))) = C :=
    jsLoopCount_nonempty hcol
  have hinit :
      buildGrid cells =
        cells.foldl fillStep (List.replicate R (List.replicate C "")) := by
    rw [buildGrid]
    rw [hRcount, hCcount]
  have hlen : (buildGrid cells).length = R := by
    rw [hinit, foldl_fillStep_length, List.length_replicate]
  have hlenSpec : (specGrid cells).length = R := by
    rw [specGrid, List.length_map, List.length_range]
  have hentry : ∀ r c, entryAt (buildGrid cells) r c =
      if r < R ∧ c < C then some (specCellValue cells r c) else none := by
    intro r c
    rw [hinit, entryAt_foldl_fillStep]
    have hbase : entryAt (List.replicate R (List.replicate C "")) r c =
        if r < R ∧ c < C then some "" else none := by
      rw [entryAt, List.getElem?_replicate]
      by_cases hr : r < R
      · simp only [if_pos hr, Option.some_bind]
        rw [List.getElem?_replicate]
        by_cases hc : c < C
        · simp [hr, hc]
        · simp [hr, hc]
      · simp [hr]
    rw [hbase]
    by_cases hr : r < R ∧ c < C
    · simp [hr, specCellValue]
    · simp [hr]
  apply List.ext_getElem?
  intro r
  by_cases hr : r < R
  · have hrlt : r < (buildGrid cells).length := by rw [hlen]; exact hr
    obtain ⟨row, hrowEq⟩ : ∃ row, (buildGrid cells)[r]? = some row :=
      ⟨_, List.getElem?_eq_getElem hrlt⟩
    have hspec : (specGrid cells)[r]? =
        some ((List.range C).map fun c => specCellValue cells r c) := by
      rw [specGrid, List.getElem?_map, List.getElem?_range hr]
      rfl
    rw [hrowEq, hspec]
    have hrowEntry : ∀ c, row[c]? =
        if r < R ∧ c < C then some (specCellValue cells r c) else none := by
      intro c
      have := hentry r c
      rw [entryAt, hrowEq] at this
      simpa using this
    congr 1
    apply List.ext_getElem?
    intro c
    rw [hrowEntry c]
    by_cases hc : c < C
    · rw [if_pos ⟨hr, hc⟩, List.getElem?_map, List.getElem?_range hc]
      rfl
    · rw [if_neg (by intro hx; exact hc hx.2), List.getElem?_map,
        List.getElem?_eq_none (by rw [List.length_range]; exact Nat.le_of_not_lt hc)]
      rfl
  · rw [List.getElem?_eq_none (by rw [hlen]; exact Nat.le_of_not_lt hr),
      List.getElem?_eq_none (by rw [hlenSpec]; exact Nat.le_of_not_lt hr)]

/-! ## Claims -/

/-- C9: for a `null`/`undefined` input and for an input lacking the
`analyzeResult` field, both text extractors return the empty string (they
are total functions, so no exception is possible). -/
theorem c9_extractors_empty_on_missing_result :
    extractTextFromResult none = "" ∧
    extractTextFromResult (some { analyzeResult := none }) = "" ∧
    extractTextFromAzureResponse none = "" ∧
    extractTextFromAzureResponse (some { analyzeResult := none }) = "" :=
  ⟨rfl, rfl, rfl, rfl⟩

/-- C10: a table whose cells list is empty contributes only its numbered
header line — `Math.max` over the empty list is `-Infinity`, so the grid
has no rows and no exception occurs (the rendering is a total function). -/
theorem c10_empty_cells_header_only (tableIndex : Nat) (t : Table)
    (h : t.cells = []) :
    renderTable tableIndex t = "\n表 " ++ toString (tableIndex + 1) ++ ":\n" := by
  cases t with
  | mk cells =>
    cases h
    simp [renderTable, buildGrid, jsMax, jsSucc, jsLoopCount, renderRows,
      String.join]

/-- Witness for C10 at a concrete empty table. -/
theorem c10_empty_cells_header_only_witness :
    renderTable 0 { cells := [] } = "\n表 " ++ toString (0 + 1) ++ ":\n" :=
  c10_empty_cells_header_only 0 { cells := [] } rfl

/-- C3 is false on the code: with the flat `content` present and a table
present, `extractTextFromResult` returns the content alone (its early
`return`), so the table section is *not* appended, contrary to the claim's
unconditional-append clause (embodied by `extractSpec`). -/
theorem c3_counterexample_content_shortcircuits_tables :
    extractTextFromResult (some exContentAndTable) = "C" ∧
    extractTextFromResult (some exContentAndTable) ≠
      extractSpec (some exContentAndTable) := by
  constructor
  · rfl
  · decide

/-- C3 (amended): `extractTextFromResult` returns the flat `content`
verbatim when present *and then appends nothing*; only when `content` is
absent does it join paragraphs with blank-line separation and append the
rendered table section; `extractTextFromAzureResponse` ignores `content`
entirely and always uses the paragraph-join plus appended table section.
The rendered grid is the spec's dense `max(rowIndex)+1 × max(colIndex)+1`
grid with cells placed at `[rowIndex][columnIndex]` and empty cells
defaulted to `""`, rows pipe-joined. -/
theorem c3_amended_extraction_policy :
    (∀ ar : AnalyzeResult, ar.content ≠ "" →
       extractTextFromResult (some { analyzeResult := some ar }) = ar.content) ∧
    (∀ ar : AnalyzeResult, ar.content = "" →
       extractTextFromResult (some { analyzeResult := some ar }) =
         (if ar.paragraphs ≠ [] then String.intercalate "\n\n" ar.paragraphs
          else "") ++
         (if ar.tables ≠ [] then "\n\n表形式データ:\n" ++ renderTables ar.tables
          else "")) ∧
    (∀ ar : AnalyzeResult,
       extractTextFromAzureResponse (some { analyzeResult := some ar }) =
         (if ar.paragraphs ≠ [] then String.intercalate "\n\n" ar.paragraphs
          else "") ++
         (if ar.tables ≠ [] then "\n\n表形式データ:\n" ++ renderTables ar.tables
          else "")) ∧
    (∀ t : Table, t.cells ≠ [] → buildGrid t.cells = specGrid t.cells) := by
  refine ⟨?_, ?_, ?_, ?_⟩
  · intro ar h
    simp [extractTextFromResult, h]
  · intro ar h
    by_cases ht : ar.tables = []
    · simp [extractTextFromResult, h, ht]
    · simp [extractTextFromResult, h, ht, String.append_assoc]
  · intro ar
    by_cases ht : ar.tables = []
    · simp [extractTextFromAzureResponse, ht]
    · simp [extractTextFromAzureResponse, ht, String.append_assoc]
  · intro t h
    exact buildGrid_eq_specGrid t.cells h

/-- Witness for the amended C3 at concrete inputs. -/
theorem c3_amended_extraction_policy_witness :
    extractTextFromResult (some (mkResp "C" ["p"] [])) = "C" ∧
    extractTextFromResult (some (mkResp "" ["p", "q"] [])) =
      (if (["p", "q"] : List String) ≠ [] then
         String.intercalate "\n\n" ["p", "q"] else "") ++
      (if ([] : List Table) ≠ [] then
         "\n\n表形式データ:\n" ++ renderTables [] else "") ∧
    extractTextFromAzureResponse (some (mkResp "C" ["p", "q"] [])) =
      (if (["p", "q"] : List String) ≠ [] then
         String.intercalate "\n\n" ["p", "q"] else "") ++
      (if ([] : List Table) ≠ [] then
         "\n\n表形式データ:\n" ++ renderTables [] else "") ∧
    buildGrid [exCell] = specGrid [exCell] := by
  refine ⟨?_, ?_, ?_, ?_⟩
  · exact c3_amended_extraction_policy.1 _ (by decide)
  · exact c3_amended_extraction_policy.2.1 _ rfl
  · exact c3_amended_extraction_policy.2.2.1 _
  · exact c3_amended_extraction_policy.2.2.2 exTable (by decide)

/-- C2 is false on the iterated list: in part_000's `apiVersions` — the list
the active orchestrator `processWithAzurePython` iterates — the candidate at
position 0 belongs to a strictly *older* API generation (legacy v2.1
custom-model path, version 2021-09-30) than the candidate at position 3
(document-intelligence, 2023-07-31). -/
theorem c2_counterexample_oldest_first :
    versionRank (((apiVersions "https://example.com" "model1").get
        ⟨0, by decide⟩).version) <
      versionRank (((apiVersions "https://example.com" "model1").get
        ⟨3, by decide⟩).version) ∧
    ((apiVersions "https://example.com" "model1").get ⟨0, by decide⟩).isCustomPath = true := by
  constructor <;> decide

/-- C2 (amended): the candidate list actually iterated (part_000's
`apiVersions`) is ordered **oldest** API generation first — for every pair
of positions `i < j`, candidate `i`'s generation is at most as recent as
candidate `j`'s; the unused `llmService.js.new` variant's `apiFormats` list
is the one ordered newest generation first. -/
theorem c2_amended_candidate_order (endpoint modelId : String) :
    List.Pairwise
      (fun a b => versionRank a.version ≤ versionRank b.version)
      (apiVersions endpoint modelId) ∧
    List.Pairwise
      (fun a b => versionRank b.apiVersion ≤ versionRank a.apiVersion)
      (apiFormats endpoint modelId) := by
  constructor <;> · simp [apiVersions, apiFormats, List.pairwise_cons, versionRank]

lemma pollBody_running_step (resp : Nat → PollResponse) (i fuel : Nat)
    (h : resp i = PollResponse.running) :
    pollBody resp (fuel + 1) i =
      ((pollBody resp fuel (i + 1)).1 + 1,
       (pollBody resp fuel (i + 1)).2.1 + 1,
       (pollBody resp fuel (i + 1)).2.2) := by
  simp [pollBody, h]

lemma pollBody_succeeded_step (resp : Nat → PollResponse) (i fuel : Nat)
    (d : PollData) (h : resp i = PollResponse.succeeded d) :
    pollBody resp (fuel + 1) i = (1, 0, Except.ok d) := by
  simp [pollBody, h]

lemma azurePollBody_running_step (resp : Nat → PollResponse) (i fuel : Nat)
    (h : resp i = PollResponse.running) :
    azurePollBody resp (fuel + 1) i =
      ((azurePollBody resp fuel (i + 1)).1 + 1,
       (azurePollBody resp fuel (i + 1)).2.1 + 1,
       (azurePollBody resp fuel (i + 1)).2.2) := by
  simp [azurePollBody, h]

lemma azurePollBody_succeeded_step (resp : Nat → PollResponse) (i fuel : Nat)
    (d : PollData) (h : resp i = PollResponse.succeeded d) :
    azurePollBody resp (fuel + 1) i = (1, 1, Except.ok d) := by
  simp [azurePollBody, h]

lemma pollBody_always_running (resp : Nat → PollResponse)
    (h : ∀ n, resp n = PollResponse.running) :
    ∀ (fuel i : Nat),
      pollBody resp fuel i =
        (fuel, fuel, Except.error "ポーリングがタイムアウトしました") := by
  intro fuel
  induction fuel with
  | zero => intro i; rfl
  | succ m ih =>
    intro i
    simp [pollBody, h i, ih (i + 1)]

lemma azurePollBody_always_running (resp : Nat → PollResponse)
    (h : ∀ n, resp n = PollResponse.running) :
    ∀ (fuel i : Nat),
      azurePollBody resp fuel i =
        (fuel, fuel, Except.error "OCR処理がタイムアウトしました。") := by
  intro fuel
  induction fuel with
  | zero => intro i; rfl
  | succ m ih =>
    intro i
    simp [azurePollBody, h i, ih (i + 1)]

/-- C4: with statuses `running`, `running`, `succeeded`, both poll
implementations return the succeeded payload after exactly 3 GETs and at
least 2 waits (`azureService.js` waits before every GET: 3 waits; part_000
waits after each non-terminal GET: 2 waits); with a permanently `running`
job, each fails with its timeout error after exactly its configured maximum
number of GETs — 30 in `azureService.js`, 60 in part_000 — and no more. -/
theorem c4_poll_counts :
    (∀ (resp : Nat → PollResponse) (d : PollData),
       resp 0 = PollResponse.running → resp 1 = PollResponse.running →
       resp 2 = PollResponse.succeeded d →
       azurePoll resp = (3, 3, Except.ok d) ∧
       pollForResult resp = (3, 2, Except.ok d)) ∧
    (∀ resp : Nat → PollResponse, (∀ n, resp n = PollResponse.running) →
       azurePoll resp = (30, 30, Except.error "OCR処理がタイムアウトしました。") ∧
       pollForResult resp =
         (60, 60, Except.error "ポーリングがタイムアウトしました")) := by
  constructor
  · intro resp d h0 h1 h2
    constructor
    · have e2 : azurePollBody resp 28 2 = (1, 1, Except.ok d) := by
        rw [show (28 : Nat) = 27 + 1 from rfl]
        exact azurePollBody_succeeded_step resp 2 27 d h2
      have e1 : azurePollBody resp 29 1 = (2, 2, Except.ok d) := by
        rw [show (29 : Nat) = 28 + 1 from rfl,
          azurePollBody_running_step resp 1 28 h1, e2]
      have e0 : azurePollBody resp 30 0 = (3, 3, Except.ok d) := by
        rw [show (30 : Nat) = 29 + 1 from rfl,
          azurePollBody_running_step resp 0 29 h0, e1]
      exact e0
    · have e2 : pollBody resp 58 2 = (1, 0, Except.ok d) := by
        rw [show (58 : Nat) = 57 + 1 from rfl]
        exact pollBody_succeeded_step resp 2 57 d h2
      have e1 : pollBody resp 59 1 = (2, 1, Except.ok d) := by
        rw [show (59 : Nat) = 58 + 1 from rfl,
          pollBody_running_step resp 1 58 h1, e2]
      have e0 : pollBody resp 60 0 = (3, 2, Except.ok d) := by
        rw [show (60 : Nat) = 59 + 1 from rfl,
          pollBody_running_step resp 0 59 h0, e1]
      exact e0
  · intro resp h
    exact ⟨azurePollBody_always_running resp h 30 0,
      pollBody_always_running resp h 60 0⟩

/-- Witness for C4: a job succeeding on the third poll and a job that never
terminates. -/
theorem c4_poll_counts_witness :
    azurePoll (fun n => if n < 2 then PollResponse.running
        else PollResponse.succeeded { analyzeResult := none }) =
      (3, 3, Except.ok { analyzeResult := none }) ∧
    pollForResult (fun n => if n < 2 then PollResponse.running
        else PollResponse.succeeded { analyzeResult := none }) =
      (3, 2, Except.ok { analyzeResult := none }) ∧
    azurePoll (fun _ => PollResponse.running) =
      (30, 30, Except.error "OCR処理がタイムアウトしました。") ∧
    pollForResult (fun _ => PollResponse.running) =
      (60, 60, Except.error "ポーリングがタイムアウトしました") := by
  refine ⟨?_, ?_, ?_, ?_⟩
  · exact (c4_poll_counts.1 _ _ rfl rfl rfl).1
  · exact (c4_poll_counts.1 _ _ rfl rfl rfl).2
  · exact (c4_poll_counts.2 _ (fun _ => rfl)).1
  · exact (c4_poll_counts.2 _ (fun _ => rfl)).2

lemma llmTry_success_step (att : Nat → LlmAttemptResult) (endpoint : String)
    (r i : Nat) (cs : List String)
    (h : att i = LlmAttemptResult.success cs) :
    llmTry att endpoint r i = (1, 0, Except.ok cs) := by
  cases r <;> simp [llmTry, h]

lemma llmTry_429_step (att : Nat → LlmAttemptResult) (endpoint : String)
    (r i : Nat) (m : String) (h : att i = LlmAttemptResult.httpError 429 m) :
    llmTry att endpoint (r + 1) i =
      ((llmTry att endpoint r (i + 1)).1 + 1,
       (llmTry att endpoint r (i + 1)).2.1 + 1,
       (llmTry att endpoint r (i + 1)).2.2) := by
  simp [llmTry, h]

/-- C5: with responses 429, 429, then 200, the LLM format operation
succeeds after exactly 3 POSTs with exactly 2 backoff waits (so at least
2); and any non-429 failure fails immediately at that same attempt — one
POST, no retry — whatever the remaining retry budget is. -/
theorem c5_rate_limit_retry :
    (∀ (att : Nat → LlmAttemptResult) (endpoint m0 m1 c : String)
       (rest : List String),
       att 0 = LlmAttemptResult.httpError 429 m0 →
       att 1 = LlmAttemptResult.httpError 429 m1 →
       att 2 = LlmAttemptResult.success (c :: rest) →
       processWithAzureOpenAI att endpoint = (3, 2, Except.ok c)) ∧
    (∀ (att : Nat → LlmAttemptResult) (endpoint : String) (r i s : Nat)
       (m : String), s ≠ 429 → att i = LlmAttemptResult.httpError s m →
       llmTry att endpoint r i = (1, 0, Except.error (httpErrMsg s m))) := by
  constructor
  · intro att endpoint m0 m1 c rest h0 h1 h2
    have e2 : llmTry att endpoint 0 2 = (1, 0, Except.ok (c :: rest)) :=
      llmTry_success_step att endpoint 0 2 (c :: rest) h2
    have e1 : llmTry att endpoint 1 1 = (2, 1, Except.ok (c :: rest)) := by
      rw [show (1 : Nat) = 0 + 1 from rfl, llmTry_429_step att endpoint 0 1 m1 h1, e2]
    have e0 : llmTry att endpoint 2 0 = (3, 2, Except.ok (c :: rest)) := by
      rw [show (2 : Nat) = 1 + 1 from rfl, llmTry_429_step att endpoint 1 0 m0 h0, e1]
    simp [processWithAzureOpenAI, e0]
  · intro att endpoint r i s m hs hi
    cases r with
    | zero => simp [llmTry, hi]
    | succ k => simp [llmTry, hi, hs]

/-- Witness for C5: a stream that is rate-limited twice then succeeds, and
a stream failing with HTTP 500 at the first attempt. -/
theorem c5_rate_limit_retry_witness :
    processWithAzureOpenAI
        (fun n => if n < 2 then LlmAttemptResult.httpError 429 "busy"
          else LlmAttemptResult.success ["done"]) "E" =
      (3, 2, Except.ok "done") ∧
    llmTry (fun _ => LlmAttemptResult.httpError 500 "boom") "E" 2 0 =
      (1, 0, Except.error (httpErrMsg 500 "boom")) := by
  constructor
  · exact c5_rate_limit_retry.1 _ "E" "busy" "busy" "done" [] rfl rfl rfl
  · exact c5_rate_limit_retry.2 _ "E" 2 0 500 "boom" (by decide) rfl

/-- C7: substituting `"X"` into `"Hello {{OCR_RESULT}} bye"` yields exactly
`"Hello X bye"`; every text longer than `MAX_OCR_LENGTH = 3000` is
substituted in truncated form — containing the truncation marker, of length
at most `3000 +` the marker's length — while text at or below the maximum
is substituted unmodified. -/
theorem c7_placeholder_substitution :
    String.mk (fullPrompt "Hello {{OCR_RESULT}} bye".data "X".data) =
      "Hello X bye" ∧
    (∀ t : List Char, MAX_OCR_LENGTH < t.length →
       truncationMarker <:+: limitOcrText t ∧
       (limitOcrText t).length ≤ MAX_OCR_LENGTH + truncationMarker.length) ∧
    (∀ t : List Char, t.length ≤ MAX_OCR_LENGTH → limitOcrText t = t) := by
  refine ⟨by decide, ?_, ?_⟩
  · intro t h
    rw [limitOcrText, if_pos h]
    constructor
    · exact ⟨t.take MAX_OCR_LENGTH, [], by simp⟩
    · rw [List.length_append, List.length_take]
      have : min MAX_OCR_LENGTH t.length ≤ MAX_OCR_LENGTH := Nat.min_le_left _ _
      omega
  · intro t h
    rw [limitOcrText, if_neg (Nat.not_lt.mpr h)]

/-- Witness for C7: a 3001-character text is truncated with the marker; a
1-character text passes through unmodified. -/
theorem c7_placeholder_substitution_witness :
    (truncationMarker <:+: limitOcrText (List.replicate 3001 'a') ∧
      (limitOcrText (List.replicate 3001 'a')).length ≤
        MAX_OCR_LENGTH + truncationMarker.length) ∧
    limitOcrText "X".data = "X".data := by
  constructor
  · exact c7_placeholder_substitution.2.1 (List.replicate 3001 'a')
      (by rw [List.length_replicate]; decide)
  · exact c7_placeholder_substitution.2.2 "X".data (by decide)

/-- C8: when the OCR stage succeeded (in either implementation path) and
the LLM formatting step fails, the stored OCR result — raw response and
extracted text — is untouched by the failure and sits in the final state
next to the LLM error message. -/
theorem c8_ocr_result_preserved_on_llm_failure (env : UploadEnv)
    (r : ApiResponse) (text m : String)
    (hocr : ocrStage env = Except.ok (r, text)) (htext : text ≠ "")
    (hep : env.llmEndpoint ≠ "") (hllm : env.llmOutcome = Except.error m) :
    handleFileUpload env =
      { error := "LLM処理エラー: " ++ m, ocrResult := some (r, text),
        llmResult := "" } := by
  simp [handleFileUpload, hocr, htext, hep, hllm]

/-- Witness for C8: OCR succeeds with text `"C"`, the LLM call fails. -/
theorem c8_ocr_result_preserved_on_llm_failure_witness :
    handleFileUpload
        { pythonResult := Except.ok (mkResp "C" [] []),
          stdResult := Except.error "std down",
          llmEndpoint := "https://llm.example.com",
          llmOutcome := Except.error "boom" } =
      { error := "LLM処理エラー: " ++ "boom",
        ocrResult := some (mkResp "C" [] [], "C"), llmResult := "" } :=
  c8_ocr_result_preserved_on_llm_failure _ (mkResp "C" [] []) "C" "boom"
    rfl (by decide) (by decide) rfl

lemma processLoop_success (d : PollData) :
    ∀ (bs : List CandidateBehavior) (k : Nat) (hk : k < bs.length)
      (last : Option String),
      (∀ i (hi : i < k),
        ∃ e, (attemptCandidate (bs.get ⟨i, Nat.lt_trans hi hk⟩)).2 =
          Except.error e) →
      (attemptCandidate (bs.get ⟨k, hk⟩)).2 = Except.ok d →
      (processLoop bs last).attempted = k + 1 ∧
      (processLoop bs last).outcome = Except.ok d := by
  intro bs
  induction bs with
  | nil =>
    intro k hk
    exact absurd hk (by simp)
  | cons b rest ih =>
    intro k hk last hfail hsucc
    cases k with
    | zero =>
      rcases hatt : attemptCandidate b with ⟨g, res⟩
      have hres : res = Except.ok d := by
        have hb : (attemptCandidate b).2 = Except.ok d := hsucc
        rw [hatt] at hb
        exact hb
      subst hres
      constructor <;> simp [processLoop, hatt]
    | succ j =>
      have hj : j < rest.length := Nat.lt_of_succ_lt_succ hk
      rcases hfail 0 (Nat.succ_pos j) with ⟨e, he⟩
      rcases hatt : attemptCandidate b with ⟨g, res⟩
      have hres : res = Except.error e := by
        have hb : (attemptCandidate b).2 = Except.error e := he
        rw [hatt] at hb
        exact hb
      subst hres
      have hsucc' : (attemptCandidate (rest.get ⟨j, hj⟩)).2 = Except.ok d := by
        rw [List.get_cons_succ] at hsucc
        exact hsucc
      have hfail' : ∀ i (hi : i < j),
          ∃ e', (attemptCandidate (rest.get ⟨i, Nat.lt_trans hi hj⟩)).2 =
            Except.error e' := by
        intro i hi
        rcases hfail (i + 1) (Nat.succ_lt_succ hi) with ⟨e', he'⟩
        rw [List.get_cons_succ] at he'
        exact ⟨e', he'⟩
      rcases ih j hj (some e) hfail' hsucc' with ⟨ha, ho⟩
      constructor <;> simp [processLoop, hatt, ha, ho]

lemma processLoop_allfail (e : String) (blast : CandidateBehavior)
    (hlast : (attemptCandidate blast).2 = Except.error e) :
    ∀ (bsInit : List CandidateBehavior) (last : Option String),
      (∀ b ∈ bsInit, ∃ em, (attemptCandidate b).2 = Except.error em) →
      (processLoop (bsInit ++ [blast]) last).outcome =
        Except.error ("ドキュメント処理に失敗しました: " ++
          orElseMsg (some e) "Unknown error") := by
  intro bsInit
  induction bsInit with
  | nil =>
    intro last hall
    rcases hatt : attemptCandidate blast with ⟨g, res⟩
    have hres : res = Except.error e := by
      rw [hatt] at hlast
      exact hlast
    subst hres
    simp [processLoop, hatt]
  | cons b rest ih =>
    intro last hall
    rcases hall b (by simp) with ⟨eb, heb⟩
    rcases hatt : attemptCandidate b with ⟨g, res⟩
    have hres : res = Except.error eb := by
      rw [hatt] at heb
      exact heb
    subst hres
    have hrest := ih (some eb) (fun x hx => hall x (by simp [hx]))
    simp [processLoop, hatt, hrest]

lemma processLoop_no_submit_no_poll :
    ∀ (bs : List CandidateBehavior) (last : Option String),
      (∀ b ∈ bs, ∃ m, b.submit = SubmitOutcome.fail m) →
      (processLoop bs last).pollGets = 0 ∧
      ∃ msg, (processLoop bs last).outcome =
        Except.error ("ドキュメント処理に失敗しました: " ++ msg) := by
  intro bs
  induction bs with
  | nil =>
    intro last hall
    exact ⟨rfl, ⟨orElseMsg last "Unknown error", rfl⟩⟩
  | cons b rest ih =>
    intro last hall
    rcases hall b (by simp) with ⟨m, hm⟩
    have hatt : attemptCandidate b = (0, Except.error m) := by
      simp [attemptCandidate, hm]
    rcases ih (some m) (fun x hx => hall x (by simp [hx])) with ⟨hg, msg, ho⟩
    refine ⟨?_, ⟨msg, ?_⟩⟩ <;> simp [processLoop, hatt, hg, ho]

/-- C1: when candidates `0..k-1` all fail (network/non-2xx submit, missing
operation-location, job failure, or poll timeout — all are per-candidate
errors of `attemptCandidate`) and candidate `k` succeeds, the orchestrator
attempts exactly the first `k + 1` candidates in list order and returns
candidate `k`'s analysis payload; when every candidate fails, it fails with
the exhausted-candidates error carrying the last candidate's error
message. -/
theorem c1_fallback_orchestration :
    (∀ (bs : List CandidateBehavior) (k : Nat) (hk : k < bs.length)
       (d : PollData),
       (∀ i (hi : i < k),
         ∃ e, (attemptCandidate (bs.get ⟨i, Nat.lt_trans hi hk⟩)).2 =
           Except.error e) →
       (attemptCandidate (bs.get ⟨k, hk⟩)).2 = Except.ok d →
       (processWithAzurePython bs).attempted = k + 1 ∧
       (processWithAzurePython bs).outcome = Except.ok d) ∧
    (∀ (bsInit : List CandidateBehavior) (blast : CandidateBehavior)
       (e : String),
       (∀ b ∈ bsInit, ∃ em, (attemptCandidate b).2 = Except.error em) →
       (attemptCandidate blast).2 = Except.error e → e ≠ "" →
       (processWithAzurePython (bsInit ++ [blast])).outcome =
         Except.error
           ("ドキュメント処理中にエラーが発生しました: ドキュメント処理に失敗しました: " ++ e)) := by
  constructor
  · intro bs k hk d hfail hsucc
    rcases processLoop_success d bs k hk none hfail hsucc with ⟨ha, ho⟩
    constructor <;> simp [processWithAzurePython, ho, ha]
  · intro bsInit blast e hall hlast hne
    have hout := processLoop_allfail e blast hlast bsInit none hall
    have hmsg : orElseMsg (some e) "Unknown error" = e := by
      simp [orElseMsg, hne]
    rw [hmsg] at hout
    have : (processWithAzurePython (bsInit ++ [blast])).outcome =
        Except.error ("ドキュメント処理中にエラーが発生しました: " ++
          ("ドキュメント処理に失敗しました: " ++ e)) := by
      simp [processWithAzurePython, hout]
    rw [this, ← String.append_assoc]
    rfl

/-- Witness for C1: a failing candidate followed by a succeeding one
(attempts both, returns the second's payload), and a list of two failing
candidates (exhausted error carrying the last message). -/
theorem c1_fallback_orchestration_witness :
    ((processWithAzurePython [exFailCand, exOkCand]).attempted = 1 + 1 ∧
      (processWithAzurePython [exFailCand, exOkCand]).outcome =
        Except.ok { analyzeResult := none }) ∧
    (processWithAzurePython ([exFailCand] ++ [exFailCand])).outcome =
      Except.error
        ("ドキュメント処理中にエラーが発生しました: ドキュメント処理に失敗しました: " ++ "e1") := by
  constructor
  · refine c1_fallback_orchestration.1 [exFailCand, exOkCand] 1 (by decide)
      { analyzeResult := none } ?_ ?_
    · intro i hi
      have hi0 : i = 0 := Nat.lt_one_iff.mp hi
      subst hi0
      exact ⟨"e1", rfl⟩
    · rfl
  · refine c1_fallback_orchestration.2 [exFailCand] exFailCand "e1" ?_ rfl
      (by decide)
    intro b hb
    have hb' : b = exFailCand := by simpa using hb
    subst hb'
    exact ⟨"e1", rfl⟩

/-- C6: when every candidate's submit POST fails, the orchestrator fails
with the exhausted-candidates error and issues zero polling GETs — polling
can only start after a submit succeeded with an operation-location
header. -/
theorem c6_no_polling_when_all_submits_fail (bs : List CandidateBehavior)
    (h : ∀ b ∈ bs, ∃ m, b.submit = SubmitOutcome.fail m) :
    (processWithAzurePython bs).pollGets = 0 ∧
    ∃ e, (processWithAzurePython bs).outcome =
      Except.error
        ("ドキュメント処理中にエラーが発生しました: ドキュメント処理に失敗しました: " ++ e) := by
  rcases processLoop_no_submit_no_poll bs none h with ⟨hg, msg, ho⟩
  constructor
  · simp [processWithAzurePython, ho, hg]
  · refine ⟨msg, ?_⟩
    have : (processWithAzurePython bs).outcome =
        Except.error ("ドキュメント処理中にエラーが発生しました: " ++
          ("ドキュメント処理に失敗しました: " ++ msg)) := by
      simp [processWithAzurePython, ho]
    rw [this, ← String.append_assoc]
    rfl

/-- Witness for C6: a single candidate with a failing submit. -/
theorem c6_no_polling_when_all_submits_fail_witness :
    (processWithAzurePython [exFailCand]).pollGets = 0 ∧
    ∃ e, (processWithAzurePython [exFailCand]).outcome =
      Except.error
        ("ドキュメント処理中にエラーが発生しました: ドキュメント処理に失敗しました: " ++ e) := by
  refine c6_no_polling_when_all_submits_fail [exFailCand] ?_
  intro b hb
  have hb' : b = exFailCand := by simpa using hb
  subst hb'
  exact ⟨"e1", rfl⟩

end OcrLlm

